import Mathlib

/-!
# Verification of `gears.draw.transforms` (pygears)

Shallow embedding of the rendering-transform decorators in
`gears/draw/transforms.py` (classes `SkewX`, `SkewY`, `Translation`,
`Rotation`, `Scaling`), together with a small-step semantics of the
OpenGL fixed-function matrix stack, and proofs about stack discipline,
matrix composition order, immutability and error behaviour.
-/

namespace Gears

/-- Abstract Python exceptions relevant to this module: the `NameError`
raised by `Rotation.render` (that method evaluates the bare name `pi`,
but the module only has `import math`, so `pi` is unbound), and the
abstract `BackendFailure` of spec §7, used to model a wrapped node whose
`render` raises. -/
inductive PyErr where
  | nameError
  | backendFailure

/-- Backend calls issued by `transforms.py`: `GL.glPushMatrix`,
`GL.glPopMatrix`, `GL.glMultMatrixf`, `GL.glTranslatef`, `GL.glRotatef`,
`GL.glScalef`.  `glMultMatrixf` carries the 16-scalar column-major list
exactly as the source passes it.  `draw` stands for one
geometry-emission call of a primitive (`gears.draw.primitives` is
outside this module and never touches the matrix stack); the tag
distinguishes distinct calls. -/
inductive GLCommand where
  | glPushMatrix
  | glPopMatrix
  | glMultMatrixf (m : List ℝ)
  | glTranslatef (x y z : ℝ)
  | glRotatef (angle ax ay az : ℝ)
  | glScalef (x y z : ℝ)
  | draw (tag : ℕ)

/-- A scene-graph node.  The five decorator constructors carry exactly
the fields assigned by the corresponding `__init__` in `transforms.py`
(`self._node` plus `self._degree` / `self._x`, `self._y` /
`self._theta` / `self._factor`).

`prim` is modelled from the spec: a primitive (§4.2) emits zero or more
geometry calls in its own local frame and returns normally, never
touching the transform stack (`gears.draw.primitives` is not part of
this repository's sources).  `failing` is modelled from the spec (§7):
a node whose `render` raises an abstract failure after emitting some
geometry. -/
inductive Node where
  | prim (draws : List ℕ)
  | failing (draws : List ℕ) (e : PyErr)
  | skewX (node : Node) (degree : ℝ)
  | skewY (node : Node) (degree : ℝ)
  | translation (node : Node) (x y : ℝ)
  | rotation (node : Node) (theta : ℝ)
  | scaling (node : Node) (factor : ℝ)

/-- Result of one `render()` call: the backend commands issued, in
order; the exception propagated out of the call (`none` = normal
return); and the receiver's object graph as it stands after the call
(the bodies of `render` in `transforms.py` contain no assignment, which
the embedding makes checkable by reconstructing the node from the
post-call states of its parts). -/
structure RenderResult where
  trace : List GLCommand
  err : Option PyErr
  node' : Node

/-- The 16-element column-major list `SkewX.render` passes to
`GL.glMultMatrixf` (line 38):
`[1,0,0,0, math.tan(self._degree),1,0,0, 0,0,1,0, 0,0,0,1]`. -/
noncomputable def skewXList (d : ℝ) : List ℝ :=
  [1, 0, 0, 0, Real.tan d, 1, 0, 0, 0, 0, 1, 0, 0, 0, 0, 1]

/-- The 16-element column-major list `SkewY.render` passes to
`GL.glMultMatrixf` (line 62):
`[1,math.tan(self._degree),0,0, 0,1,0,0, 0,0,1,0, 0,0,0,1]`. -/
noncomputable def skewYList (d : ℝ) : List ℝ :=
  [1, Real.tan d, 0, 0, 0, 1, 0, 0, 0, 0, 1, 0, 0, 0, 0, 1]

/-- Trailing commands of a decorator's `render`: the `GL.glPopMatrix()`
statement runs only when delegation returned normally.  The source has
no `try`/`finally`, so an exception raised by the wrapped node's
`render` propagates past the pop. -/
def popIfOk : Option PyErr → List GLCommand
  | none => [GLCommand.glPopMatrix]
  | some _ => []

/-- Shallow embedding of `render()` for every node shape.

* `SkewX.render` / `SkewY.render`: push, `glMultMatrixf` of the skew
  list (built from `math.tan(self._degree)` inside `render`), delegate,
  pop.
* `Translation.render`: push, `glTranslatef(self._x, self._y, 0)`,
  delegate, pop.
* `Rotation.render`: after `GL.glPushMatrix()`, the argument expression
  `self._theta * 180 / pi` of the `GL.glRotatef` call is evaluated; the
  name `pi` is unbound (the module has `import math` but never binds
  `pi`), so a `NameError` propagates: no rotate command is issued, the
  wrapped node is not rendered, and the pop is not executed.
* `Scaling.render`: push, `glScalef(self._factor, self._factor, 1.0)`,
  delegate, pop.

When delegation raises, the exception propagates immediately, so the
trailing `glPopMatrix` is skipped. -/
noncomputable def render : Node → RenderResult
  | .prim ds => ⟨ds.map GLCommand.draw, none, .prim ds⟩
  | .failing ds e => ⟨ds.map GLCommand.draw, some e, .failing ds e⟩
  | .skewX n d =>
      ⟨GLCommand.glPushMatrix :: GLCommand.glMultMatrixf (skewXList d) ::
        ((render n).trace ++ popIfOk (render n).err),
        (render n).err, .skewX (render n).node' d⟩
  | .skewY n d =>
      ⟨GLCommand.glPushMatrix :: GLCommand.glMultMatrixf (skewYList d) ::
        ((render n).trace ++ popIfOk (render n).err),
        (render n).err, .skewY (render n).node' d⟩
  | .translation n x y =>
      ⟨GLCommand.glPushMatrix :: GLCommand.glTranslatef x y 0 ::
        ((render n).trace ++ popIfOk (render n).err),
        (render n).err, .translation (render n).node' x y⟩
  | .rotation n t =>
      ⟨[GLCommand.glPushMatrix], some PyErr.nameError, .rotation n t⟩
  | .scaling n f =>
      ⟨GLCommand.glPushMatrix :: GLCommand.glScalef f f 1 ::
        ((render n).trace ++ popIfOk (render n).err),
        (render n).err, .scaling (render n).node' f⟩

/-- `SkewX.__init__`: assigns `self._node` and `self._degree`; issues
no backend command (second component is the commands emitted during
construction). -/
def SkewX.init (node : Node) (degree : ℝ) : Node × List GLCommand :=
  (.skewX node degree, [])

/-- `SkewY.__init__`: assigns `self._node` and `self._degree`; issues
no backend command. -/
def SkewY.init (node : Node) (degree : ℝ) : Node × List GLCommand :=
  (.skewY node degree, [])

/-- `Translation.__init__`: assigns `self._node`, `self._x`, `self._y`;
issues no backend command. -/
def Translation.init (node : Node) (x y : ℝ) : Node × List GLCommand :=
  (.translation node x y, [])

/-- `Rotation.__init__`: assigns `self._node` and `self._theta` (the
angle in radians, stored unconverted); issues no backend command. -/
def Rotation.init (node : Node) (theta : ℝ) : Node × List GLCommand :=
  (.rotation node theta, [])

/-- `Scaling.__init__`: assigns `self._node` and `self._factor`; issues
no backend command. -/
def Scaling.init (node : Node) (factor : ℝ) : Node × List GLCommand :=
  (.scaling node factor, [])

/-- The scalar parameter a skew decorator stores at construction
(`self._degree`), when the node is a skew decorator. -/
def storedDegree : Node → Option ℝ
  | .skewX _ d => some d
  | .skewY _ d => some d
  | _ => none

/-- 4×4 real matrices: the value space of the backend's fixed-function
modelview matrix. -/
abbrev Mat4 := Matrix (Fin 4) (Fin 4) ℝ

/-- Interpret a 16-element scalar list the way `glMultMatrixf` does:
column-major, entry `(i, j)` at index `4*j + i` (OpenGL 2.1 spec,
§2.11.2). -/
def colMajor (l : List ℝ) : Mat4 :=
  Matrix.of fun i j => l.getD (4 * j.val + i.val) 0

/-- The matrix by which `glTranslatef x y z` post-multiplies the
current matrix. -/
def translateMat (x y z : ℝ) : Mat4 :=
  !![1, 0, 0, x; 0, 1, 0, y; 0, 0, 1, z; 0, 0, 0, 1]

/-- The matrix by which `glScalef x y z` post-multiplies the current
matrix. -/
def scaleMat (x y z : ℝ) : Mat4 :=
  !![x, 0, 0, 0; 0, y, 0, 0; 0, 0, z, 0; 0, 0, 0, 1]

/-- The matrix by which `glRotatef angle ax ay az` post-multiplies the
current matrix: rotation by `angle` degrees about the normalized axis
(OpenGL 2.1 spec, §2.11.2).  `transforms.py` can never actually issue
this command: its only call site, `Rotation.render`, raises `NameError`
while evaluating the angle argument. -/
noncomputable def rotatefMat (a x y z : ℝ) : Mat4 :=
  let c := Real.cos (a * Real.pi / 180)
  let s := Real.sin (a * Real.pi / 180)
  let nn := Real.sqrt (x ^ 2 + y ^ 2 + z ^ 2)
  let u := x / nn
  let v := y / nn
  let w := z / nn
  !![u * u * (1 - c) + c, u * v * (1 - c) - w * s, u * w * (1 - c) + v * s, 0;
     v * u * (1 - c) + w * s, v * v * (1 - c) + c, v * w * (1 - c) - u * s, 0;
     w * u * (1 - c) - v * s, w * v * (1 - c) + u * s, w * w * (1 - c) + c, 0;
     0, 0, 0, 1]

/-- State of the backend matrix stack: the current (top) matrix and the
saved matrices below it. -/
structure GLState where
  current : Mat4
  stack : List Mat4

/-- Semantics of one backend command (OpenGL fixed-function modelview
stack): `glPushMatrix` duplicates the current matrix onto the stack;
`glPopMatrix` restores the most recently saved matrix (a pop on an
empty stack is a GL error and leaves the state unchanged); the matrix
commands post-multiply the current matrix; geometry emission does not
touch the matrix state. -/
noncomputable def execCmd (s : GLState) : GLCommand → GLState
  | .glPushMatrix => ⟨s.current, s.current :: s.stack⟩
  | .glPopMatrix =>
      match s.stack with
      | [] => s
      | m :: rest => ⟨m, rest⟩
  | .glMultMatrixf l => ⟨s.current * colMajor l, s.stack⟩
  | .glTranslatef x y z => ⟨s.current * translateMat x y z, s.stack⟩
  | .glRotatef a ax ay az => ⟨s.current * rotatefMat a ax ay az, s.stack⟩
  | .glScalef x y z => ⟨s.current * scaleMat x y z, s.stack⟩
  | .draw _ => s

/-- Run a command trace from a state. -/
noncomputable def execTrace : GLState → List GLCommand → GLState
  | s, [] => s
  | s, c :: cs => execTrace (execCmd s c) cs

/-- Transform-stack depth of a backend state. -/
def depth (s : GLState) : ℕ := s.stack.length

/-- Initial backend state: identity current matrix, empty stack. -/
noncomputable def glInit : GLState := ⟨1, []⟩

/-- The current matrix in force at each geometry-emission command of a
trace, in order: the effective transform each primitive draw is
subjected to. -/
noncomputable def drawTransforms : GLState → List GLCommand → List Mat4
  | _, [] => []
  | s, c :: cs =>
      (match c with
        | GLCommand.draw _ => [s.current]
        | _ => []) ++ drawTransforms (execCmd s c) cs

/-- The four decorators whose `render` reaches its backend matrix call
(`Rotation.render` raises `NameError` before its matrix call, see
`render`).  Used to state push/apply/delegate/pop properties
uniformly. -/
inductive Dec where
  | skewX (d : ℝ)
  | skewY (d : ℝ)
  | translation (x y : ℝ)
  | scaling (f : ℝ)

/-- Wrap a node with the given decorator. -/
def Dec.apply : Dec → Node → Node
  | .skewX d, n => .skewX n d
  | .skewY d, n => .skewY n d
  | .translation x y, n => .translation n x y
  | .scaling f, n => .scaling n f

/-- The matrix command the decorator's `render` issues between its push
and its delegation. -/
noncomputable def Dec.cmd : Dec → GLCommand
  | .skewX d => .glMultMatrixf (skewXList d)
  | .skewY d => .glMultMatrixf (skewYList d)
  | .translation x y => .glTranslatef x y 0
  | .scaling f => .glScalef f f 1

/-- The decorator's transform matrix: the matrix its command
post-multiplies onto the backend's current matrix. -/
noncomputable def Dec.mat : Dec → Mat4
  | .skewX d => colMajor (skewXList d)
  | .skewY d => colMajor (skewYList d)
  | .translation x y => translateMat x y 0
  | .scaling f => scaleMat f f 1

theorem render_dec (D : Dec) (n : Node) :
    render (D.apply n) =
      ⟨GLCommand.glPushMatrix :: D.cmd ::
        ((render n).trace ++ popIfOk (render n).err),
        (render n).err, D.apply (render n).node'⟩ := by
  cases D <;> rfl

theorem execCmd_dec (D : Dec) (s : GLState) :
    execCmd s D.cmd = ⟨s.current * D.mat, s.stack⟩ := by
  cases D <;> rfl

theorem render_node_eq : ∀ n : Node, (render n).node' = n := by
  intro n
  induction n <;> simp [render, *]

theorem drawTransforms_push (s : GLState) (cs : List GLCommand) :
    drawTransforms s (GLCommand.glPushMatrix :: cs)
      = drawTransforms ⟨s.current, s.current :: s.stack⟩ cs := by
  simp [drawTransforms, execCmd]

theorem drawTransforms_cmd (D : Dec) (s : GLState) (cs : List GLCommand) :
    drawTransforms s (D.cmd :: cs)
      = drawTransforms ⟨s.current * D.mat, s.stack⟩ cs := by
  cases D <;> simp [Dec.cmd, Dec.mat, drawTransforms, execCmd]

theorem drawTransforms_draws (ds : List ℕ) (s : GLState) (rest : List GLCommand) :
    drawTransforms s (ds.map GLCommand.draw ++ rest)
      = List.replicate ds.length s.current ++ drawTransforms s rest := by
  induction ds with
  | nil => simp
  | cons a as ih => simp [drawTransforms, execCmd, ih, List.replicate_succ]

theorem drawTransforms_single (D : Dec) (ds : List ℕ) (s : GLState) :
    drawTransforms s (render (D.apply (Node.prim ds))).trace
      = List.replicate ds.length (s.current * D.mat) := by
  rw [render_dec D]
  show drawTransforms s (GLCommand.glPushMatrix :: D.cmd ::
      ((render (Node.prim ds)).trace ++ popIfOk (render (Node.prim ds)).err)) = _
  rw [show (render (Node.prim ds)).trace = ds.map GLCommand.draw from rfl,
    show popIfOk (render (Node.prim ds)).err = [GLCommand.glPopMatrix] from rfl,
    drawTransforms_push, drawTransforms_cmd, drawTransforms_draws]
  simp [drawTransforms]

theorem drawTransforms_nested (D1 D2 : Dec) (ds : List ℕ) (s : GLState) :
    drawTransforms s (render (D1.apply (D2.apply (Node.prim ds)))).trace
      = List.replicate ds.length (s.current * D1.mat * D2.mat) := by
  rw [render_dec D1, render_dec D2]
  show drawTransforms s (GLCommand.glPushMatrix :: D1.cmd ::
      ((GLCommand.glPushMatrix :: D2.cmd ::
          ((render (Node.prim ds)).trace ++ popIfOk (render (Node.prim ds)).err))
        ++ popIfOk (render (Node.prim ds)).err)) = _
  rw [show (render (Node.prim ds)).trace = ds.map GLCommand.draw from rfl,
    show popIfOk (render (Node.prim ds)).err = [GLCommand.glPopMatrix] from rfl]
  rw [drawTransforms_push, drawTransforms_cmd]
  rw [show (GLCommand.glPushMatrix :: D2.cmd ::
      (ds.map GLCommand.draw ++ [GLCommand.glPopMatrix])) ++ [GLCommand.glPopMatrix]
      = GLCommand.glPushMatrix :: D2.cmd ::
        (ds.map GLCommand.draw ++ [GLCommand.glPopMatrix, GLCommand.glPopMatrix]) by
    simp]
  rw [drawTransforms_push, drawTransforms_cmd, drawTransforms_draws]
  simp [drawTransforms]

theorem colMajor_skewXList (d : ℝ) :
    colMajor (skewXList d)
      = !![1, Real.tan d, 0, 0; 0, 1, 0, 0; 0, 0, 1, 0; 0, 0, 0, 1] := by
  ext i j
  fin_cases i <;> fin_cases j <;> rfl

theorem colMajor_skewYList (d : ℝ) :
    colMajor (skewYList d)
      = !![1, 0, 0, 0; Real.tan d, 1, 0, 0; 0, 0, 1, 0; 0, 0, 0, 1] := by
  ext i j
  fin_cases i <;> fin_cases j <;> rfl

theorem translateMat_mul (x1 y1 z1 x2 y2 z2 : ℝ) :
    translateMat x1 y1 z1 * translateMat x2 y2 z2
      = translateMat (x1 + x2) (y1 + y2) (z1 + z2) := by
  ext i j
  fin_cases i <;> fin_cases j <;>
    simp [translateMat, Matrix.mul_apply, Fin.sum_univ_four, Matrix.vecHead,
      Matrix.vecTail] <;>
    ring

/-- Claim C1: the claim asserts that every decorator, Rotation included,
leaves the transform-stack depth unchanged when wrapping a node whose
render completes normally.  The code violates this for Rotation: with a
wrapped primitive that renders normally, `Rotation.render` raises
`NameError` (unbound name `pi`) right after its `glPushMatrix`, so the
whole trace is a single push and the stack depth after the call is one
greater than before. -/
theorem c1_rotation_breaks_stack_discipline :
    (render (Node.prim [7])).err = none ∧
    (render (Node.rotation (Node.prim [7]) 2)).trace = [GLCommand.glPushMatrix] ∧
    depth (execTrace glInit (render (Node.rotation (Node.prim [7]) 2)).trace)
      = depth glInit + 1 :=
  ⟨rfl, rfl, rfl⟩

/-- Claim C2 (amended): when the wrapped node's render raises, a
decorator does not execute its `glPopMatrix` (there is no
`try`/`finally`): the exception propagates and the decorator's full
command trace is just the push, its matrix command, and whatever the
wrapped node emitted — no pop, so the stack is left deeper, not
restored. -/
theorem c2_no_pop_on_raising_path (D : Dec) (n : Node) (e : PyErr)
    (h : (render n).err = some e) :
    (render (D.apply n)).err = some e ∧
    (render (D.apply n)).trace
      = GLCommand.glPushMatrix :: D.cmd :: (render n).trace := by
  rw [render_dec]
  simp [h, popIfOk]

/-- Witness for `c2_no_pop_on_raising_path` at a concrete input: a
Translation wrapping a node whose render raises `BackendFailure`. -/
theorem c2_no_pop_on_raising_path_witness :
    (render ((Dec.translation 250 0).apply
        (Node.failing [] PyErr.backendFailure))).err
      = some PyErr.backendFailure ∧
    (render ((Dec.translation 250 0).apply
        (Node.failing [] PyErr.backendFailure))).trace
      = GLCommand.glPushMatrix :: (Dec.translation 250 0).cmd ::
          (render (Node.failing [] PyErr.backendFailure)).trace :=
  c2_no_pop_on_raising_path (Dec.translation 250 0)
    (Node.failing [] PyErr.backendFailure) PyErr.backendFailure rfl

/-- Claim C2 (counterexample to the claim as stated): for
`Translation(failing_node, 250, 0)`, delegation raises, the pop is never
issued (the trace is exactly push then translate), and the stack depth
after the call is one greater than before — not balanced as the claim
asserts. -/
theorem c2_counterexample :
    (render (Node.translation (Node.failing [] PyErr.backendFailure) 250 0)).err
      = some PyErr.backendFailure ∧
    (render (Node.translation (Node.failing [] PyErr.backendFailure) 250 0)).trace
      = [GLCommand.glPushMatrix, GLCommand.glTranslatef 250 0 0] ∧
    depth (execTrace glInit
        (render (Node.translation (Node.failing [] PyErr.backendFailure) 250 0)).trace)
      = depth glInit + 1 :=
  ⟨rfl, rfl, rfl⟩

/-- Claim C3: the claim asserts `render()` never raises, in particular
that `Rotation(node, theta).render()` completes for every theta.  The
code violates this: for every wrapped node and every theta, the
evaluation of `self._theta * 180 / pi` raises `NameError` because the
module never binds the name `pi` (it only has `import math`). -/
theorem c3_rotation_render_raises (n : Node) (t : ℝ) :
    (render (Node.rotation n t)).err = some PyErr.nameError :=
  rfl

/-- Claim C4: the claim asserts `Rotation.render` passes
`theta * 180 / π` degrees with axis (0, 0, 1) to the backend rotate
call.  The code never reaches that call: for every node and theta the
trace is a bare `glPushMatrix` (no `glRotatef` whatsoever) and a
`NameError` propagates out of the argument expression. -/
theorem c4_no_rotate_command_issued (n : Node) (t : ℝ) :
    (render (Node.rotation n t)).trace = [GLCommand.glPushMatrix] ∧
    (render (Node.rotation n t)).err = some PyErr.nameError :=
  ⟨rfl, rfl⟩

/-- Claim C5 (counterexample to the claim as stated): the state stored
by `SkewX.__init__` is not a finished matrix.  At degree π/4 the
construction stores the raw parameter π/4, while the finished shear
coefficient of the matrix that `render` later hands to `glMultMatrixf`
is `tan(π/4) = 1 ≠ π/4`: the matrix value is produced from the stored
parameter (by `math.tan`) inside `render`, not at construction. -/
theorem c5_counterexample :
    storedDegree (SkewX.init (Node.prim []) (Real.pi / 4)).1
      = some (Real.pi / 4) ∧
    (render (SkewX.init (Node.prim []) (Real.pi / 4)).1).trace.get? 1
      = some (GLCommand.glMultMatrixf (skewXList (Real.pi / 4))) ∧
    (skewXList (Real.pi / 4)).get? 4 = some (Real.tan (Real.pi / 4)) ∧
    Real.tan (Real.pi / 4) = 1 ∧
    Real.pi / 4 ≠ 1 := by
  refine ⟨rfl, rfl, rfl, Real.tan_pi_div_four, ?_⟩
  intro h
  have h4 : Real.pi = 4 := by linarith
  have h315 := Real.pi_lt_d2
  linarith

/-- Claim C5 (amended): construction stores only the decorator's raw
parameters (`self._node`, `self._degree`); the transform matrix is
derived from those parameters anew inside every `render()` call (the
`math.tan` sits in the `glMultMatrixf` argument in `render`).  Because
the stored parameters are never reassigned, every render derives the
identical matrix, so repeated renders issue identical matrix
commands. -/
theorem c5_matrix_rederived_each_render (n : Node) (d : ℝ) :
    (SkewX.init n d).1 = Node.skewX n d ∧
    storedDegree (SkewX.init n d).1 = some d ∧
    (render (Node.skewX n d)).trace.get? 1
      = some (GLCommand.glMultMatrixf (skewXList d)) ∧
    (SkewY.init n d).1 = Node.skewY n d ∧
    storedDegree (SkewY.init n d).1 = some d ∧
    (render (Node.skewY n d)).trace.get? 1
      = some (GLCommand.glMultMatrixf (skewYList d)) :=
  ⟨rfl, rfl, rfl, rfl, rfl, rfl⟩

/-- Claim C6 (counterexample to the claim as stated): the claim
quantifies over every pair of nested decorators, but with the outer
decorator a Rotation the primitive never renders at all —
`Rotation.render` raises `NameError` before delegating — so no draw of
the primitive happens under any effective transform (the list of
transforms-at-draw-moments is empty), while the inner subtree alone
would have drawn the primitive once. -/
theorem c6_counterexample :
    drawTransforms glInit
        (render (Node.rotation (Node.translation (Node.prim [0]) 250 0) 1)).trace
      = [] ∧
    drawTransforms glInit
        (render (Node.translation (Node.prim [0]) 250 0)).trace
      = [glInit.current * translateMat 250 0 0] := by
  constructor
  · rfl
  · have h := drawTransforms_single (Dec.translation 250 0) [0] glInit
    exact h

/-- Claim C6 (amended): for every pair of nested decorators drawn from
SkewX, SkewY, Translation, Scaling (the decorators whose `render`
reaches its matrix call) around a primitive, every draw of the
primitive executes with current transform equal to the start matrix
post-multiplied by the outer then the inner decorator matrix — i.e. the
effective transform on the primitive's local coordinates is
`M_D1 · M_D2` in outer-to-inner order. -/
theorem c6_composition_order (D1 D2 : Dec) (ds : List ℕ) (s : GLState) :
    drawTransforms s (render (D1.apply (D2.apply (Node.prim ds)))).trace
      = List.replicate ds.length (s.current * D1.mat * D2.mat) :=
  drawTransforms_nested D1 D2 ds s

/-- Claim C7: nested translations compose additively: rendering
`Translation(Translation(P, x2, y2), x1, y1)` subjects every draw of
the primitive to the same effective transform as rendering
`Translation(P, x1+x2, y1+y2)`. -/
theorem c7_translation_additive (x1 y1 x2 y2 : ℝ) (ds : List ℕ) (s : GLState) :
    drawTransforms s
        (render (Node.translation (Node.translation (Node.prim ds) x2 y2) x1 y1)).trace
      = drawTransforms s
          (render (Node.translation (Node.prim ds) (x1 + x2) (y1 + y2))).trace := by
  refine (drawTransforms_nested (Dec.translation x1 y1) (Dec.translation x2 y2)
      ds s).trans
    (Eq.trans ?_
      (drawTransforms_single (Dec.translation (x1 + x2) (y1 + y2)) ds s).symm)
  simp [Dec.mat, mul_assoc, translateMat_mul]

/-- Claim C8: `SkewX.render` multiplies the current matrix by the shear
matrix taking (x, y, z, w) to (x + tan(d)·y, y, z, w), and
`SkewY.render` by the shear matrix taking it to (x, y + tan(d)·x, z, w),
each before delegating to the wrapped node (the matrix command precedes
the wrapped node's trace). -/
theorem c8_skew_shear_matrices (n : Node) (d : ℝ) (v : Fin 4 → ℝ) :
    (render (Node.skewX n d)).trace
      = GLCommand.glPushMatrix :: GLCommand.glMultMatrixf (skewXList d) ::
          ((render n).trace ++ popIfOk (render n).err) ∧
    (render (Node.skewY n d)).trace
      = GLCommand.glPushMatrix :: GLCommand.glMultMatrixf (skewYList d) ::
          ((render n).trace ++ popIfOk (render n).err) ∧
    (∀ s : GLState, execCmd s (GLCommand.glMultMatrixf (skewXList d))
      = ⟨s.current * colMajor (skewXList d), s.stack⟩) ∧
    Matrix.mulVec (colMajor (skewXList d)) v
      = ![v 0 + Real.tan d * v 1, v 1, v 2, v 3] ∧
    Matrix.mulVec (colMajor (skewYList d)) v
      = ![v 0, v 1 + Real.tan d * v 0, v 2, v 3] := by
  refine ⟨rfl, rfl, fun s => rfl, ?_, ?_⟩
  · rw [colMajor_skewXList]
    funext i
    fin_cases i <;>
      simp [Matrix.mulVec, Matrix.dotProduct, Fin.sum_univ_four]
  · rw [colMajor_skewYList]
    funext i
    fin_cases i <;>
      simp [Matrix.mulVec, Matrix.dotProduct, Fin.sum_univ_four] <;>
      ring

/-- Claim C9: rendering is deterministic and idempotent at the command
level: a second `render()` call on the tree as it stands after the
first call (which `render` never mutates) produces the identical
result — same command trace, same outcome. -/
theorem c9_render_idempotent (n : Node) :
    render ((render n).node') = render n := by
  rw [render_node_eq]

/-- Claim C10: rendering never mutates the tree — after `render()`
returns or raises, the object graph (all `_node`, `_degree`, `_x`,
`_y`, `_theta`, `_factor` fields) is exactly what construction built —
and construction itself (`__init__` of each decorator) issues no
backend command. -/
theorem c10_render_no_mutation (n m : Node) (d x y t f : ℝ) :
    (render n).node' = n ∧
    (SkewX.init m d).2 = [] ∧
    (SkewY.init m d).2 = [] ∧
    (Translation.init m x y).2 = [] ∧
    (Rotation.init m t).2 = [] ∧
    (Scaling.init m f).2 = [] :=
  ⟨render_node_eq n, rfl, rfl, rfl, rfl, rfl⟩

end Gears
